import Mathlib

/-!
Verification of the museek RFI flag post-processing engine and the
time-ordered data element abstraction, shallowly embedded from the
repository's Python source.

Flag grids are modelled as functions `Fin nt → Fin nf → Bool`
(`time × frequency`), matching the 2D slices (with trailing singleton
receiver axis squeezed away) that the plugin operates on.
-/

namespace Museek

/-- A 2D flag grid: `true` means "flagged" (the Python code uses
boolean / integer-≥1 semantics). -/
def Grid (nt nf : ℕ) : Type := Fin nt → Fin nf → Bool

instance (nt nf : ℕ) : DecidableEq (Grid nt nf) := by
  unfold Grid
  infer_instance

instance (nt nf : ℕ) : Inhabited (Grid nt nf) := ⟨fun _ _ => false⟩

/-- Number of flagged samples in a grid. -/
def countFlagged {nt nf : ℕ} (g : Grid nt nf) : ℕ :=
  (Finset.univ.filter (fun p : Fin nt × Fin nf => g p.1 p.2 = true)).card

/-- Number of flagged samples in row (time dump) `i`. -/
def rowCount {nt nf : ℕ} (g : Grid nt nf) (i : Fin nt) : ℕ :=
  ((List.finRange nf).filter (fun j => g i j)).length

/-- Number of flagged samples in column (frequency channel) `j`. -/
def colCount {nt nf : ℕ} (g : Grid nt nf) (j : Fin nf) : ℕ :=
  ((List.finRange nt).filter (fun i => g i j)).length

/-- Additive/OR combination of two flag grids (the Python
`rfi_result + initial_flag`: any positive value reads as flagged). -/
def gridOr {nt nf : ℕ} (a b : Grid nt nf) : Grid nt nf :=
  fun i j => a i j || b i j

/-- Whether integer offset `d` lies in a centered window of size `s`
(offsets from `-(s / 2)` to `s - 1 - s / 2`, integer division). -/
def inWindow (s : ℕ) (d : ℤ) : Prop :=
  -((s : ℤ) / 2) ≤ d ∧ d ≤ (s : ℤ) - 1 - (s : ℤ) / 2

instance (s : ℕ) (d : ℤ) : Decidable (inWindow s d) := by
  unfold inWindow
  infer_instance

/-- Modelled from the spec: `RfiPostProcess.binary_mask_dilation`
(file `museek/rfi_mitigation/rfi_post_process.py` is not under `src/`).
"If `structuring_size` is `None`, is a no-op (returns input unchanged).
Otherwise grows every flagged sample into its rectangular neighborhood of
size `structuring_size` (time, frequency) centered on each flagged sample.
Values outside the grid are treated as unflagged (no wraparound)." -/
def dilation {nt nf : ℕ} (ss : Option (ℕ × ℕ)) (g : Grid nt nf) : Grid nt nf :=
  match ss with
  | none => g
  | some (a, b) =>
      fun i j =>
        g i j ||
          decide (∃ p : Fin nt, ∃ q : Fin nf, g p q = true ∧
            inWindow a ((i : ℤ) - (p : ℤ)) ∧ inWindow b ((j : ℤ) - (q : ℤ)))

/-- Modelled from the spec: binary erosion with a rectangular structuring
element of size `(a, b)`; a sample stays flagged only if its whole
neighborhood is in bounds and flagged (values outside the grid are
treated as unflagged). Used as the second half of closing. -/
def erosion {nt nf : ℕ} (a b : ℕ) (g : Grid nt nf) : Grid nt nf :=
  fun i j =>
    decide (∀ u : Fin a, ∀ v : Fin b,
      ∃ p : Fin nt, ∃ q : Fin nf,
        (p : ℤ) = (i : ℤ) + (u : ℤ) - (a : ℤ) / 2 ∧
        (q : ℤ) = (j : ℤ) + (v : ℤ) - (b : ℤ) / 2 ∧ g p q = true)

/-- Modelled from the spec: `RfiPostProcess.binary_mask_closing`
(not under `src/`). "Closing: binary closing (dilation then erosion) with
a structuring element". When the structuring size is `None` the closing is
a no-op as well — the documented consistent choice for the source's
closing-without-structuring-element path. -/
def closing {nt nf : ℕ} (ss : Option (ℕ × ℕ)) (g : Grid nt nf) : Grid nt nf :=
  match ss with
  | none => g
  | some (a, b) => erosion a b (dilation (some (a, b)) g)

/-- Modelled from the spec: `RfiPostProcess.flag_all_channels`
(not under `src/`). For each frequency channel, the fraction of flagged
time dumps is compared to the threshold with strict `>`; on exceedance the
entire channel is flagged. -/
def flag_all_channels {nt nf : ℕ} (threshold : ℚ) (g : Grid nt nf) : Grid nt nf :=
  fun i j => g i j || decide ((colCount g j : ℚ) / (nt : ℚ) > threshold)

/-- Modelled from the spec: `RfiPostProcess.flag_all_time_dumps`
(not under `src/`). For each time dump, the fraction of flagged frequency
channels is compared to the threshold with strict `>`; on exceedance the
entire time dump is flagged. -/
def flag_all_time_dumps {nt nf : ℕ} (threshold : ℚ) (g : Grid nt nf) : Grid nt nf :=
  fun i j => g i j || decide ((rowCount g i : ℚ) / (nf : ℚ) > threshold)

/-- State of an `RfiPostProcess` object: the working flag and the
structuring size it was constructed with (the `initial_flag` constructor
argument is tracked by the object but not used by the four methods
modelled here, per the spec's RFI-only stage description). -/
structure RfiPostProcess (nt nf : ℕ) where
  flag : Grid nt nf
  struct_size : Option (ℕ × ℕ)

namespace RfiPostProcess

/-- Method `binary_mask_dilation`: dilate the working flag in place. -/
def binary_mask_dilation {nt nf : ℕ} (s : RfiPostProcess nt nf) : RfiPostProcess nt nf :=
  { s with flag := dilation s.struct_size s.flag }

/-- Method `binary_mask_closing`: apply binary closing to the working flag. -/
def binary_mask_closing {nt nf : ℕ} (s : RfiPostProcess nt nf) : RfiPostProcess nt nf :=
  { s with flag := closing s.struct_size s.flag }

/-- Method `flag_all_channels`: escalate fully on the channel axis. -/
def flag_all_channels_m {nt nf : ℕ} (t : ℚ) (s : RfiPostProcess nt nf) : RfiPostProcess nt nf :=
  { s with flag := flag_all_channels t s.flag }

/-- Method `flag_all_time_dumps`: escalate fully on the time axis. -/
def flag_all_time_dumps_m {nt nf : ℕ} (t : ℚ) (s : RfiPostProcess nt nf) : RfiPostProcess nt nf :=
  { s with flag := flag_all_time_dumps t s.flag }

/-- Method `get_flag`: return the working flag. -/
def get_flag {nt nf : ℕ} (s : RfiPostProcess nt nf) : Grid nt nf := s.flag

end RfiPostProcess

/-- Embedding of `AoflaggerPostCalibrationPlugin.post_process_flag`
(src/museek/plugin/aoflagger_postcalibration_plugin.py lines 151-179),
embedded statefully, method call by method call. -/
def post_process_flag {nt nf : ℕ} (struct_size : Option (ℕ × ℕ))
    (channel_flag_threshold time_dump_flag_threshold : ℚ)
    (flag initial_flag : Grid nt nf) : Grid nt nf :=
  let pp1 : RfiPostProcess nt nf := ⟨flag, struct_size⟩
  let pp1 := pp1.binary_mask_dilation
  let pp1 := pp1.binary_mask_closing
  let rfi_result := pp1.get_flag
  let pp2 : RfiPostProcess nt nf := ⟨gridOr rfi_result initial_flag, struct_size⟩
  let pp2 := pp2.flag_all_channels_m channel_flag_threshold
  let pp2 := pp2.flag_all_time_dumps_m time_dump_flag_threshold
  pp2.get_flag

/-! ### Plugin configuration (`AoflaggerPostCalibrationPlugin.__init__`) -/

/-- The configuration attributes stored by
`AoflaggerPostCalibrationPlugin.__init__` that the post-processing claims
concern (src lines 28-64; the remaining attributes are detector
parameters, irrelevant here and elided). -/
structure AoflaggerConfig where
  mask_type : String
  first_threshold : ℚ
  struct_size : Option (ℕ × ℕ)
  channel_flag_threshold : ℚ
  time_dump_flag_threshold : ℚ
deriving DecidableEq

/-- Embedding of `AoflaggerPostCalibrationPlugin.__init__` (src lines
28-64): the constructor stores every parameter unchanged and performs no
validation of any kind, so it always succeeds. -/
def pluginInit (mask_type : String) (first_threshold : ℚ)
    (struct_size : Option (ℕ × ℕ))
    (channel_flag_threshold time_dump_flag_threshold : ℚ) :
    Except String AoflaggerConfig :=
  Except.ok ⟨mask_type, first_threshold, struct_size,
    channel_flag_threshold, time_dump_flag_threshold⟩

/-! ### Result combiner (`gather_and_set_result`) -/

/-- Embedding of `np.array(result_list)` on a list of 2D grids: a 3D array
of shape `(n_receiver, n_time, n_frequency)`. -/
def listStack {nt nf : ℕ} (l : List (Grid nt nf)) :
    Fin l.length → Fin nt → Fin nf → Bool :=
  fun k i j => l.get k i j

/-- Embedding of `.transpose(1, 2, 0)` on a `(r, nt, nf)` array, giving a
`(nt, nf, r)` array. -/
def transpose120 {r nt nf : ℕ} (a : Fin r → Fin nt → Fin nf → Bool) :
    Fin nt → Fin nf → Fin r → Bool :=
  fun i j k => a k i j

/-- The combined mask assembled by `gather_and_set_result` (src line 132):
`np.array(result_list).transpose(1, 2, 0)`. -/
def gatherMask {nt nf : ℕ} (l : List (Grid nt nf)) :
    Fin nt → Fin nf → Fin l.length → Bool :=
  transpose120 (listStack l)

/-- Modelled from the spec: the parallel execution framework
(`AbstractParallelJoblibPlugin`, not under `src/`) delivers `result_list`
with one entry per work item in original receiver order — "map independent
work items to a pure function, collect results keyed by item index".
`completions` is the finished jobs in arbitrary completion order, tagged
by receiver index; the collection associates by index. -/
def collectByIndex {nt nf : ℕ} (n : ℕ)
    (completions : List (ℕ × Grid nt nf)) : List (Grid nt nf) :=
  (List.range n).map (fun i => (completions.lookup i).getD default)

/-! ### Summary statistics (`gather_and_set_result`, src lines 134-141) -/

/-- Python/numpy round-half-to-even on a rational. -/
def bankersRound (q : ℚ) : ℤ :=
  if q - ⌊q⌋ = 1 / 2 then (if 2 ∣ ⌊q⌋ then ⌊q⌋ else ⌊q⌋ + 1) else round q

/-- Python `round(q, 4)`: round to 4 decimal places, ties to even. -/
def round4 (q : ℚ) : ℚ := (bankersRound (q * 10000) : ℚ) / 10000

/-- Embedding of `calibrated_data.mask[:,:,i_antenna].flatten()`: the 2D
receiver slice of the combined mask, flattened row by row. -/
def sliceFlatten {nt nf r : ℕ} (m : Fin nt → Fin nf → Fin r → Bool)
    (k : Fin r) : List Bool :=
  ((List.finRange nt).map (fun i => (List.finRange nf).map (fun j => m i j k))).flatten

/-- Embedding of `np.sum(slice >= 1)` on a boolean slice: the number of
flagged (true) samples. -/
def countTrue (l : List Bool) : ℕ := l.count true

/-- The `flag_percent` list built by `gather_and_set_result` (src line
137): for each receiver, `round(np.sum(slice >= 1) / len(slice.flatten()), 4)`. -/
def flagPercent {nt nf r : ℕ} (m : Fin nt → Fin nf → Fin r → Bool) :
    List ℚ :=
  (List.finRange r).map (fun k =>
    round4 ((countTrue (sliceFlatten m k) : ℚ) / ((sliceFlatten m k).length : ℚ)))

/-- The per-receiver report pairing produced by `gather_and_set_result`
(src lines 136-141): receiver display names zipped with the flagged
fractions, in receiver order. -/
def summaryPairs {nt nf r : ℕ} (names : List String)
    (m : Fin nt → Fin nf → Fin r → Bool) : List (String × ℚ) :=
  names.zip (flagPercent m)

/-! ### TimeOrderedDataElement (src/museek/time_ordered_data_element.py)

The constructor check is modelled over plain shaped arrays; the `get`
method, whose contract is about aliasing, is modelled over a store of 3D
arrays addressed by identifier, so that "backed by a copy" is a statement
about distinct store cells. -/

/-- A numpy array, as far as the constructor check is concerned: a shape
and the data addressed by multi-index. -/
structure NpArray where
  shape : List ℕ
  data : List ℕ → ℤ

/-- The dimensions a parent `TimeOrderedData` expects of its elements. -/
structure ParentDims where
  n_dump : ℕ
  n_frequency : ℕ
  n_receiver : ℕ
deriving DecidableEq

/-- One axis of the documented invariant: the axis size is `1` (a
broadcast axis of copies) or the expected size. -/
def axisOk (s expected : ℕ) : Prop := s = 1 ∨ s = expected

instance (s expected : ℕ) : Decidable (axisOk s expected) := by
  unfold axisOk
  infer_instance

/-- The documented shape invariant of `TimeOrderedDataElement`: the array
is 3-dimensional with each axis size either `1` or the expected size. -/
def shapeInvariant (shape : List ℕ) (p : ParentDims) : Prop :=
  shape.length = 3 ∧ axisOk (shape.getD 0 0) p.n_dump ∧
    axisOk (shape.getD 1 0) p.n_frequency ∧ axisOk (shape.getD 2 0) p.n_receiver

instance (shape : List ℕ) (p : ParentDims) : Decidable (shapeInvariant shape p) := by
  unfold shapeInvariant
  infer_instance

/-- A constructed `TimeOrderedDataElement` value. -/
structure TODElementC where
  array : NpArray
  parent : ParentDims

/-- Embedding of `TimeOrderedDataElement.__init__` (src lines 14-23): the
only check performed is that the array is 3-dimensional; on failure a
`ValueError` is raised, on success the array and parent are stored. -/
def todElementInit (array : NpArray) (parent : ParentDims) :
    Except String TODElementC :=
  if array.shape.length = 3 then Except.ok ⟨array, parent⟩
  else Except.error "ValueError: Input array needs to be 3-dimensional"

/-- Whether an `Except` value is a success. -/
def exceptOk {ε α : Type} : Except ε α → Bool
  | Except.ok _ => true
  | Except.error _ => false

/-- A 3D array value: axis sizes and data, totalised over `ℕ` indices. -/
structure Array3 where
  s0 : ℕ
  s1 : ℕ
  s2 : ℕ
  data : ℕ → ℕ → ℕ → ℤ

instance : Inhabited Array3 := ⟨⟨0, 0, 0, fun _ _ _ => 0⟩⟩

/-- A store of arrays addressed by identifier; an identifier models a
Python object reference, so aliasing and copying are observable. -/
abbrev Store : Type := List Array3

/-- Read the array behind an identifier. -/
def storeGet (s : Store) (id : ℕ) : Array3 := s.getD id default

/-- Mutate the array behind an identifier in place. -/
def storeSet (s : Store) (id : ℕ) (a : Array3) : Store := s.set id a

/-- A `TimeOrderedDataElement` as a pair of references: its backing array
and its parent. -/
structure TODElementRef where
  arrayId : ℕ
  parentId : ℕ
deriving DecidableEq

/-- One of the index arguments accepted by `get`: `None`, a plain `int`,
or a list of `int`s. -/
inductive IndexArg
  | noneI : IndexArg
  | intI (i : ℕ) : IndexArg
  | listI (l : List ℕ) : IndexArg
deriving DecidableEq

/-- The normalisation `get` performs on each index argument: an `int` is
replaced by the one-element list around it (src lines 89-94). -/
def IndexArg.asList : IndexArg → Option (List ℕ)
  | IndexArg.noneI => none
  | IndexArg.intI i => some [i]
  | IndexArg.listI l => some l

/-- Fancy-index axis 0 with a list: `array[l, :, :]`. -/
def indexTime (a : Array3) (l : List ℕ) : Array3 :=
  ⟨l.length, a.s1, a.s2, fun i j k => a.data (l.getD i 0) j k⟩

/-- Fancy-index axis 1 with a list: `array[:, l, :]`. -/
def indexFreq (a : Array3) (l : List ℕ) : Array3 :=
  ⟨a.s0, l.length, a.s2, fun i j k => a.data i (l.getD j 0) k⟩

/-- Fancy-index axis 2 with a list: `array[:, :, l]`. -/
def indexRecv (a : Array3) (l : List ℕ) : Array3 :=
  ⟨a.s0, a.s1, l.length, fun i j k => a.data i j (l.getD k 0)⟩

/-- Apply one optional index step (`if x is not None: array = array[...]`). -/
def applyIndex (f : Array3 → List ℕ → Array3) (o : Option (List ℕ))
    (a : Array3) : Array3 :=
  match o with
  | none => a
  | some l => f a l

/-- Embedding of `TimeOrderedDataElement.get` (src lines 73-103): copy the
backing array (`self._array.copy()` — modelled by allocating a fresh store
cell), normalise `int` indices to one-element lists, index each present
axis in order, and return a new element over the fresh array with the same
parent. -/
def elementGet (s : Store) (e : TODElementRef)
    (time freq recv : IndexArg) : Store × TODElementRef :=
  let array := storeGet s e.arrayId
  let array := applyIndex indexTime time.asList array
  let array := applyIndex indexFreq freq.asList array
  let array := applyIndex indexRecv recv.asList array
  (s ++ [array], ⟨s.length, e.parentId⟩)

/-- A `TimeOrderedDataElement` by value, for the `__mul__` model: the
parent is kept as an identifier because `__mul__` compares parents by
instance. -/
structure TODElementV where
  array : Array3
  parentId : ℕ

/-- The possible right operands of `__mul__`: another element, a numpy
array, a number, or anything else. -/
inductive MulOther
  | elemO (e : TODElementV) : MulOther
  | arrO (a : Array3) : MulOther
  | numO (x : ℤ) : MulOther
  | otherO : MulOther

/-- The possible outcomes of `__mul__`: the implicit Python `None`
fall-through, a raised `ValueError`, or a new element. -/
inductive MulResult
  | noneR : MulResult
  | valueErrorR : MulResult
  | okR (e : TODElementV) : MulResult

/-- Elementwise product of two arrays of equal shape (numpy `*`). -/
def elemMul (a b : Array3) : Array3 :=
  ⟨a.s0, a.s1, a.s2, fun i j k => a.data i j k * b.data i j k⟩

/-- Product of an array with a scalar (numpy broadcasting of a number). -/
def scalarMul (a : Array3) (x : ℤ) : Array3 :=
  ⟨a.s0, a.s1, a.s2, fun i j k => a.data i j k * x⟩

/-- Embedding of `TimeOrderedDataElement.__mul__` (src lines 25-38): an
element operand with a different parent raises `ValueError`; an element
with the same parent, an array, or a number produces a new element sharing
the left operand's parent; any other operand falls off the end of the
method, returning Python `None`. -/
def elementMul (self : TODElementV) : MulOther → MulResult
  | MulOther.elemO e =>
      if self.parentId ≠ e.parentId then MulResult.valueErrorR
      else MulResult.okR ⟨elemMul self.array e.array, self.parentId⟩
  | MulOther.arrO a => MulResult.okR ⟨elemMul self.array a, self.parentId⟩
  | MulOther.numO x => MulResult.okR ⟨scalarMul self.array x, self.parentId⟩
  | MulOther.otherO => MulResult.noneR

/-! ### Concrete fixtures used to evaluate the theorems on explicit inputs -/

/-- A concrete 2×2 grid with only sample (0,0) flagged. -/
def gw2 : Grid 2 2 := fun i j => decide (i.val = 0 ∧ j.val = 0)

/-- Concrete per-receiver results for two receivers over a 1×1 grid:
receiver 1's grid is all-flagged, receiver 0's is all-clear. -/
def fW : ℕ → Grid 1 1 := fun i _ _ => decide (i = 1)

/-- A completion list for `fW` in reversed (out-of-order) completion
order: receiver 1 finished before receiver 0. -/
def comps : List (ℕ × Grid 1 1) := [(1, fW 1), (0, fW 0)]

/-- A concrete 1×1×1 all-flagged combined mask. -/
def mW : Fin 1 → Fin 1 → Fin 1 → Bool := fun _ _ _ => true

/-- A concrete one-array store. -/
def storeW : Store := [⟨2, 3, 4, fun _ _ _ => 5⟩]

/-- A concrete element over `storeW`. -/
def elemW : TODElementRef := ⟨0, 7⟩

/-! ## Theorems -/

/-- C1: `post_process_flag` performs exactly this sequence: dilation with
`struct_size` then binary closing on the raw RFI flag alone (the initial
flag is not merged into the first stage), then the combination
`rfi_result + initial_flag`, then `flag_all_channels` followed by
`flag_all_time_dumps` on the combined grid, whose output is returned. -/
theorem post_process_flag_pipeline_order (nt nf : ℕ) (ss : Option (ℕ × ℕ))
    (ct tdt : ℚ) (flag initial_flag : Grid nt nf) :
    post_process_flag ss ct tdt flag initial_flag =
      flag_all_time_dumps tdt
        (flag_all_channels ct
          (gridOr (closing ss (dilation ss flag)) initial_flag)) := rfl

/-- C5: when the structuring size is `None`, dilation returns the input
grid unchanged, and `None` is accepted by the plugin constructor as a
valid configuration (no error is raised). -/
theorem struct_size_none_disables_dilation (nt nf : ℕ) (g : Grid nt nf)
    (mt : String) (ft ct tdt : ℚ) :
    dilation none g = g ∧
      pluginInit mt ft none ct tdt = Except.ok ⟨mt, ft, none, ct, tdt⟩ :=
  ⟨rfl, rfl⟩

/-- C7 counterexample: a `channel_flag_threshold` of `2` lies outside
`[0, 1]`, yet `AoflaggerPostCalibrationPlugin.__init__` accepts it and
stores it unchanged — no validation error is raised at setup. -/
theorem pluginInit_accepts_out_of_range :
    ¬ ((0 : ℚ) ≤ 2 ∧ (2 : ℚ) ≤ 1) ∧
      pluginInit "vis" 6 none 2 (1 / 2) =
        Except.ok ⟨"vis", 6, none, 2, 1 / 2⟩ :=
  ⟨by norm_num, rfl⟩

/-- C7 amended: the plugin constructor performs no range validation:
for every configuration, including thresholds outside `[0, 1]`, it
succeeds and stores the threshold values unchanged (no clamping). -/
theorem pluginInit_never_rejects (mt : String) (ft : ℚ)
    (ss : Option (ℕ × ℕ)) (ct tdt : ℚ) :
    ∃ c : AoflaggerConfig, pluginInit mt ft ss ct tdt = Except.ok c ∧
      c.channel_flag_threshold = ct ∧ c.time_dump_flag_threshold = tdt ∧
      c.struct_size = ss :=
  ⟨⟨mt, ft, ss, ct, tdt⟩, rfl, rfl, rfl, rfl⟩

/-- C8 counterexample: a 3-dimensional array of shape `[2, 3, 4]` whose
axis sizes are neither `1` nor the parent's expected sizes `(5, 6, 7)`
violates the axis-size invariant, yet the constructor succeeds: only
dimensionality is checked. -/
theorem todElementInit_accepts_bad_axes :
    ¬ shapeInvariant [2, 3, 4] ⟨5, 6, 7⟩ ∧
      exceptOk (todElementInit ⟨[2, 3, 4], fun _ => 0⟩ ⟨5, 6, 7⟩) = true :=
  ⟨by decide, rfl⟩

/-- C8 amended: the constructor raises `ValueError` exactly when the
array is not 3-dimensional, and succeeds for every 3-dimensional array —
the axis-size invariant is not checked at construction. -/
theorem todElementInit_checks_only_ndim (arr : NpArray) (p : ParentDims) :
    (arr.shape.length ≠ 3 → todElementInit arr p =
        Except.error "ValueError: Input array needs to be 3-dimensional") ∧
    (arr.shape.length = 3 → todElementInit arr p = Except.ok ⟨arr, p⟩) := by
  constructor
  · intro h
    simp [todElementInit, h]
  · intro h
    simp [todElementInit, h]

/-- Witness for C8 amended: a 2D array is rejected with `ValueError`, a
3D array of the same kind is accepted. -/
theorem todElementInit_checks_only_ndim_witness :
    todElementInit ⟨[2, 3], fun _ => 0⟩ ⟨5, 6, 7⟩ =
      Except.error "ValueError: Input array needs to be 3-dimensional" ∧
    todElementInit ⟨[2, 3, 4], fun _ => 0⟩ ⟨5, 6, 7⟩ =
      Except.ok ⟨⟨[2, 3, 4], fun _ => 0⟩, ⟨5, 6, 7⟩⟩ :=
  ⟨(todElementInit_checks_only_ndim ⟨[2, 3], fun _ => 0⟩ ⟨5, 6, 7⟩).1 (by decide),
   (todElementInit_checks_only_ndim ⟨[2, 3, 4], fun _ => 0⟩ ⟨5, 6, 7⟩).2 rfl⟩

/-- C10: multiplying an element by an unsupported operand returns `None`;
`ValueError` is raised exactly when the operand is an element with a
different parent; otherwise the result is a new element whose array is
the elementwise product and whose parent is the left operand's. -/
theorem element_mul_dispatch (self : TODElementV) (other : MulOther) :
    (elementMul self MulOther.otherO = MulResult.noneR) ∧
    (elementMul self other = MulResult.valueErrorR ↔
      ∃ e, other = MulOther.elemO e ∧ e.parentId ≠ self.parentId) ∧
    (∀ e, other = MulOther.elemO e → e.parentId = self.parentId →
      elementMul self other =
        MulResult.okR ⟨elemMul self.array e.array, self.parentId⟩) ∧
    (∀ a, other = MulOther.arrO a →
      elementMul self other = MulResult.okR ⟨elemMul self.array a, self.parentId⟩) ∧
    (∀ x, other = MulOther.numO x →
      elementMul self other = MulResult.okR ⟨scalarMul self.array x, self.parentId⟩) := by
  refine ⟨rfl, ?_, ?_, ?_, ?_⟩
  · cases other with
    | elemO e =>
        constructor
        · intro h
          by_cases hp : self.parentId = e.parentId
          · exfalso
            simp [elementMul, hp] at h
          · exact ⟨e, rfl, fun hq => hp hq.symm⟩
        · rintro ⟨e2, he, hp⟩
          injection he with h1
          subst h1
          have hne : self.parentId ≠ e.parentId := fun hq => hp hq.symm
          simp [elementMul, hne]
    | arrO a => simp [elementMul]
    | numO x => simp [elementMul]
    | otherO => simp [elementMul]
  · intro e he hp
    cases he
    simp [elementMul, hp]
  · intro a ha
    cases ha
    rfl
  · intro x hx
    cases hx
    rfl

/-- Witness for C10: multiplying two concrete same-parent elements gives
the elementwise product element, and a different-parent pair raises. -/
theorem element_mul_dispatch_witness :
    elementMul ⟨⟨1, 1, 1, fun _ _ _ => 2⟩, 0⟩
        (MulOther.elemO ⟨⟨1, 1, 1, fun _ _ _ => 3⟩, 0⟩) =
      MulResult.okR ⟨elemMul ⟨1, 1, 1, fun _ _ _ => 2⟩ ⟨1, 1, 1, fun _ _ _ => 3⟩, 0⟩ ∧
    elementMul ⟨⟨1, 1, 1, fun _ _ _ => 2⟩, 0⟩
        (MulOther.elemO ⟨⟨1, 1, 1, fun _ _ _ => 3⟩, 1⟩) =
      MulResult.valueErrorR :=
  ⟨(element_mul_dispatch ⟨⟨1, 1, 1, fun _ _ _ => 2⟩, 0⟩
      (MulOther.elemO ⟨⟨1, 1, 1, fun _ _ _ => 3⟩, 0⟩)).2.2.1
      ⟨⟨1, 1, 1, fun _ _ _ => 3⟩, 0⟩ rfl rfl,
   (element_mul_dispatch ⟨⟨1, 1, 1, fun _ _ _ => 2⟩, 0⟩
      (MulOther.elemO ⟨⟨1, 1, 1, fun _ _ _ => 3⟩, 1⟩)).2.1.mpr
      ⟨⟨⟨1, 1, 1, fun _ _ _ => 3⟩, 1⟩, rfl, by decide⟩⟩

/-- C2: `flag_all_time_dumps` flags an entire time dump exactly when its
flagged fraction strictly exceeds the threshold and leaves the time dump
unchanged when the fraction is at most the threshold (so equality does
not escalate); symmetrically for `flag_all_channels` per channel. -/
theorem threshold_escalation_strict (nt nf : ℕ) (g : Grid nt nf) (t : ℚ)
    (i : Fin nt) (j : Fin nf) :
    ((rowCount g i : ℚ) / (nf : ℚ) > t →
        ∀ j2 : Fin nf, flag_all_time_dumps t g i j2 = true) ∧
    ((rowCount g i : ℚ) / (nf : ℚ) ≤ t →
        flag_all_time_dumps t g i j = g i j) ∧
    ((colCount g j : ℚ) / (nt : ℚ) > t →
        ∀ i2 : Fin nt, flag_all_channels t g i2 j = true) ∧
    ((colCount g j : ℚ) / (nt : ℚ) ≤ t →
        flag_all_channels t g i j = g i j) := by
  refine ⟨?_, ?_, ?_, ?_⟩
  · intro h j2
    simp [flag_all_time_dumps, h]
  · intro h
    simp [flag_all_time_dumps, not_lt.mpr h]
  · intro h i2
    simp [flag_all_channels, h]
  · intro h
    simp [flag_all_channels, not_lt.mpr h]

/-- Witness for C2: on the 2×2 grid with one flagged sample in row 0,
threshold 1/4 (exceeded by the fraction 1/2) escalates the whole row,
while threshold 1/2 (met exactly) leaves sample (0,1) unchanged. -/
theorem threshold_escalation_strict_witness :
    flag_all_time_dumps (1 / 4) gw2 0 1 = true ∧
    flag_all_time_dumps (1 / 2) gw2 0 1 = gw2 0 1 :=
  ⟨(threshold_escalation_strict 2 2 gw2 (1 / 4) 0 1).1
      (by
        have h1 : rowCount gw2 0 = 1 := by decide
        rw [h1]
        norm_num) 1,
   (threshold_escalation_strict 2 2 gw2 (1 / 2) 0 1).2.1
      (by
        have h1 : rowCount gw2 0 = 1 := by decide
        rw [h1]
        norm_num)⟩

/-- C6: dilation, `flag_all_channels` and `flag_all_time_dumps` are
monotone — every flagged input sample stays flagged in the output — and
OR-combining two grids never decreases the flagged count. -/
theorem flag_ops_monotone (nt nf : ℕ) (ss : Option (ℕ × ℕ)) (t : ℚ)
    (g a b : Grid nt nf) (i : Fin nt) (j : Fin nf) :
    (g i j = true → dilation ss g i j = true) ∧
    (g i j = true → flag_all_channels t g i j = true) ∧
    (g i j = true → flag_all_time_dumps t g i j = true) ∧
    countFlagged a ≤ countFlagged (gridOr a b) := by
  refine ⟨?_, ?_, ?_, ?_⟩
  · intro h
    cases ss with
    | none => exact h
    | some p =>
        cases p with
        | mk sa sb => simp [dilation, h]
  · intro h
    simp [flag_all_channels, h]
  · intro h
    simp [flag_all_time_dumps, h]
  · apply Finset.card_le_card
    intro p hp
    simp only [Finset.mem_filter, Finset.mem_univ, true_and] at hp ⊢
    simp [gridOr, hp]

/-- Witness for C6: monotonicity evaluated at the flagged sample (0,0) of
the concrete grid, and the OR-count inequality at concrete grids. -/
theorem flag_ops_monotone_witness :
    dilation (some (3, 3)) gw2 0 0 = true ∧
    flag_all_channels (9 / 10) gw2 0 0 = true ∧
    flag_all_time_dumps (9 / 10) gw2 0 0 = true ∧
    countFlagged gw2 ≤ countFlagged (gridOr gw2 gw2) :=
  ⟨(flag_ops_monotone 2 2 (some (3, 3)) (9 / 10) gw2 gw2 gw2 0 0).1 (by decide),
   (flag_ops_monotone 2 2 (some (3, 3)) (9 / 10) gw2 gw2 gw2 0 0).2.1 (by decide),
   (flag_ops_monotone 2 2 (some (3, 3)) (9 / 10) gw2 gw2 gw2 0 0).2.2.1 (by decide),
   (flag_ops_monotone 2 2 (some (3, 3)) (9 / 10) gw2 gw2 gw2 0 0).2.2.2⟩

/-- C3: when every receiver's result can be found in the completion list
under its receiver index — no matter in what order the jobs completed —
the assembled `(n_time, n_frequency, n_receiver)` mask has receiver `k`'s
result in slice `k`, in original receiver order. -/
theorem gather_preserves_receiver_order (nt nf n : ℕ)
    (completions : List (ℕ × Grid nt nf)) (f : ℕ → Grid nt nf)
    (h : ∀ i, i < n → completions.lookup i = some (f i)) :
    (collectByIndex n completions).length = n ∧
    ∀ (i : Fin nt) (j : Fin nf)
      (k : Fin (collectByIndex n completions).length),
      gatherMask (collectByIndex n completions) i j k = f k i j := by
  constructor
  · simp [collectByIndex]
  · intro i j k
    have hk : (k : ℕ) < n := by
      have h2 := k.isLt
      simpa [collectByIndex] using h2
    show (collectByIndex n completions).get k i j = f k i j
    have hg : (collectByIndex n completions).get k =
        (completions.lookup (k : ℕ)).getD default := by
      simp [collectByIndex, List.get_eq_getElem]
    rw [hg, h (k : ℕ) hk]
    rfl

/-- Witness for C3: two receivers whose jobs completed in reversed order
are still placed at their own indices in the combined mask. -/
theorem gather_preserves_receiver_order_witness :
    (collectByIndex 2 comps).length = 2 ∧
    ∀ (i : Fin 1) (j : Fin 1) (k : Fin (collectByIndex 2 comps).length),
      gatherMask (collectByIndex 2 comps) i j k = fW k i j :=
  gather_preserves_receiver_order 1 1 2 comps fW (by decide)

/-- The flattened receiver slice of a `(nt, nf, r)` mask has exactly
`nt * nf` samples. -/
theorem sliceFlatten_length {nt nf r : ℕ}
    (m : Fin nt → Fin nf → Fin r → Bool) (k : Fin r) :
    (sliceFlatten m k).length = nt * nf := by
  simp [sliceFlatten, Function.comp_def, List.sum_replicate, smul_eq_mul]

/-- C4: the reported summary pairs each receiver's display name, in
receiver order, with `round(count(mask >= 1) / total_samples, 4)` where
`total_samples = n_time * n_frequency` for that receiver's slice. -/
theorem summary_flag_fractions (nt nf r : ℕ)
    (m : Fin nt → Fin nf → Fin r → Bool) (names : List String)
    (h : names.length = r) :
    (summaryPairs names m).length = r ∧
    ∀ k : Fin r,
      (summaryPairs names m).getD k ("", 0) =
        (names.getD k "",
         round4 ((countTrue (sliceFlatten m k) : ℚ) / ((nt * nf : ℕ) : ℚ))) := by
  have hfp : (flagPercent m).length = r := by simp [flagPercent]
  have hlen : (summaryPairs names m).length = r := by
    simp [summaryPairs, h, hfp]
  refine ⟨hlen, ?_⟩
  intro k
  have hk1 : (k : ℕ) < (summaryPairs names m).length := by
    rw [hlen]
    exact k.isLt
  have hk2 : (k : ℕ) < names.length := by
    rw [h]
    exact k.isLt
  rw [List.getD_eq_getElem _ _ hk1, List.getD_eq_getElem _ _ hk2]
  simp [summaryPairs, List.getElem_zip, flagPercent, sliceFlatten_length]

/-- Witness for C4: a single all-flagged receiver reported under its
name with fraction `round4 1`. -/
theorem summary_flag_fractions_witness :
    (summaryPairs ["m000h"] mW).length = 1 ∧
    ∀ k : Fin 1,
      (summaryPairs ["m000h"] mW).getD k ("", 0) =
        (["m000h"].getD k "",
         round4 ((countTrue (sliceFlatten mW k) : ℚ) / ((1 * 1 : ℕ) : ℚ))) :=
  summary_flag_fractions 1 1 1 mW ["m000h"] (by decide)

/-- Reading a pre-existing cell is unchanged by appending an array. -/
theorem storeGet_append_lt (s : Store) (x : Array3) (id : ℕ)
    (h : id < s.length) : storeGet (s ++ [x]) id = storeGet s id := by
  unfold storeGet
  rw [List.getD_eq_getElem?_getD, List.getD_eq_getElem?_getD]
  rw [List.getElem?_append_left h]

/-- Reading the appended cell gives the appended array. -/
theorem storeGet_append_length (s : Store) (x : Array3) :
    storeGet (s ++ [x]) s.length = x := by
  unfold storeGet
  rw [List.getD_eq_getElem?_getD, List.getElem?_concat_length]
  rfl

/-- Writing one cell leaves every other cell unchanged. -/
theorem storeGet_set_ne (s : Store) (id1 id2 : ℕ) (a : Array3)
    (h : id1 ≠ id2) : storeGet (storeSet s id1 a) id2 = storeGet s id2 := by
  unfold storeGet storeSet
  rw [List.getD_eq_getElem?_getD, List.getD_eq_getElem?_getD]
  rw [List.getElem?_set_ne h]

/-- Indexing the frequency axis does not change the time axis size. -/
theorem applyIndexFreq_s0 (o : Option (List ℕ)) (a : Array3) :
    (applyIndex indexFreq o a).s0 = a.s0 := by
  cases o <;> rfl

/-- Indexing the receiver axis does not change the time axis size. -/
theorem applyIndexRecv_s0 (o : Option (List ℕ)) (a : Array3) :
    (applyIndex indexRecv o a).s0 = a.s0 := by
  cases o <;> rfl

/-- Indexing the receiver axis does not change the frequency axis size. -/
theorem applyIndexRecv_s1 (o : Option (List ℕ)) (a : Array3) :
    (applyIndex indexRecv o a).s1 = a.s1 := by
  cases o <;> rfl

/-- C9: `get` returns an element backed by a fresh copy with the same
parent: the original element's array is untouched by the call, mutating
the copy leaves the original unchanged and vice versa, and an integer
index is treated as a one-element list so every axis survives (with size
1) in the result. -/
theorem element_get_copies (s : Store) (e : TODElementRef)
    (time freq recv : IndexArg) (h : e.arrayId < s.length) :
    (elementGet s e time freq recv).2.arrayId ≠ e.arrayId ∧
    (elementGet s e time freq recv).2.parentId = e.parentId ∧
    (∀ id, id < s.length →
      storeGet (elementGet s e time freq recv).1 id = storeGet s id) ∧
    (∀ a, storeGet
        (storeSet (elementGet s e time freq recv).1
          (elementGet s e time freq recv).2.arrayId a) e.arrayId =
      storeGet (elementGet s e time freq recv).1 e.arrayId) ∧
    (∀ a, storeGet
        (storeSet (elementGet s e time freq recv).1 e.arrayId a)
          (elementGet s e time freq recv).2.arrayId =
      storeGet (elementGet s e time freq recv).1
        (elementGet s e time freq recv).2.arrayId) ∧
    (∀ i, time = IndexArg.intI i →
      (storeGet (elementGet s e time freq recv).1
        (elementGet s e time freq recv).2.arrayId).s0 = 1) ∧
    (∀ j, freq = IndexArg.intI j →
      (storeGet (elementGet s e time freq recv).1
        (elementGet s e time freq recv).2.arrayId).s1 = 1) ∧
    (∀ k, recv = IndexArg.intI k →
      (storeGet (elementGet s e time freq recv).1
        (elementGet s e time freq recv).2.arrayId).s2 = 1) := by
  have hfst : (elementGet s e time freq recv).2.arrayId = s.length := rfl
  have hne : s.length ≠ e.arrayId := (Nat.ne_of_lt h).symm
  refine ⟨?_, rfl, ?_, ?_, ?_, ?_, ?_, ?_⟩
  · rw [hfst]
    exact hne
  · intro id hid
    exact storeGet_append_lt s _ id hid
  · intro a
    rw [hfst]
    exact storeGet_set_ne _ s.length e.arrayId a hne
  · intro a
    rw [hfst]
    rw [storeGet_set_ne _ e.arrayId s.length a (Nat.ne_of_lt h)]
  · intro i ht
    subst ht
    rw [hfst]
    show (storeGet (s ++ [_]) s.length).s0 = 1
    rw [storeGet_append_length]
    rw [applyIndexRecv_s0, applyIndexFreq_s0]
    rfl
  · intro j hf
    subst hf
    rw [hfst]
    show (storeGet (s ++ [_]) s.length).s1 = 1
    rw [storeGet_append_length]
    rw [applyIndexRecv_s1]
    rfl
  · intro k hr
    subst hr
    rw [hfst]
    show (storeGet (s ++ [_]) s.length).s2 = 1
    rw [storeGet_append_length]
    rfl

/-- Witness for C9: on a concrete one-array store, `get` with an integer
time index yields an element over a fresh array id whose time axis has
size 1. -/
theorem element_get_copies_witness :
    (elementGet storeW elemW (IndexArg.intI 1) IndexArg.noneI
        (IndexArg.listI [0, 2])).2.arrayId ≠ elemW.arrayId ∧
    (storeGet (elementGet storeW elemW (IndexArg.intI 1) IndexArg.noneI
        (IndexArg.listI [0, 2])).1
      (elementGet storeW elemW (IndexArg.intI 1) IndexArg.noneI
        (IndexArg.listI [0, 2])).2.arrayId).s0 = 1 :=
  ⟨(element_get_copies storeW elemW (IndexArg.intI 1) IndexArg.noneI
      (IndexArg.listI [0, 2]) (by decide)).1,
   (element_get_copies storeW elemW (IndexArg.intI 1) IndexArg.noneI
      (IndexArg.listI [0, 2]) (by decide)).2.2.2.2.2.1 1 rfl⟩

end Museek
